import Mathlib

/-!
# Verification of the message parsing / normalization layer

A shallow embedding, in Lean 4, of the core of the credit-log web tool:
* the four XML schema decoders of `msgClasses.js` (`MSG01.fromXMLString`,
  `MSG02.fromXMLString`, `MSG05.fromXMLString`, `MSG07.fromXMLString`),
* the record store, the join-and-enrich pipeline (`generateCombinedDisplayData`),
  currency conversion (`convertToUSD`) and the classification rule engine
  (`getCreditManager`) of `script.js`.

Modelling conventions:
* JavaScript dynamic values that occur in this code (null, strings, finite
  numbers, NaN) are the inductive `JsVal`; machine floats are modelled as
  rationals (`Rat`), which is exact for every literal and arithmetic step the
  claims exercise.
* A thrown exception is an `Except.error` carrying the JS `Error` message;
  a `TypeError` from dereferencing `null` is modelled as `Option.none`.
* The DOM fragment is the tree `XmlNode`; `querySelector` is first-match
  depth-first (document-order) descendant search, as in the DOM.
* `Number(...)` and `parseFloat(...)` are modelled for decimal literals
  (sign, digits, decimal point, exponent part, surrounding ASCII whitespace);
  the hexadecimal / `Infinity` forms never produced by this program are
  mapped to NaN.
-/

namespace CreditLog

/-- A JavaScript runtime value as it occurs in this program: `null`, a string,
a finite number (modelled as a rational) or the number `NaN`. -/
inductive JsVal where
  | null : JsVal
  | str (s : String) : JsVal
  | num (q : Rat) : JsVal
  | nan : JsVal
deriving DecidableEq, Repr

/-- Result of `parseFloat` / of coercing to a JS number: either NaN or a
finite number. -/
inductive PFloat where
  | nan : PFloat
  | num (q : Rat) : PFloat
deriving DecidableEq, Repr

/-! ## Characters, digits and JS number parsing -/

/-- The decimal digit characters, as produced when JS stringifies numbers. -/
def digitChar (d : Nat) : Char :=
  match d with
  | 0 => '0' | 1 => '1' | 2 => '2' | 3 => '3' | 4 => '4'
  | 5 => '5' | 6 => '6' | 7 => '7' | 8 => '8' | 9 => '9'
  | _ => '*'

/-- Numeric value of a decimal digit character. -/
def charDigit (c : Char) : Nat := c.toNat - 48

/-- Value of a most-significant-first list of decimal digit characters. -/
def digitsToNat (ds : List Char) : Nat :=
  ds.foldl (fun a c => 10 * a + charDigit c) 0

/-- Decimal digit characters of `n`, most significant first, with explicit
fuel (any fuel above `n` is enough; structural recursion keeps the
definition kernel-computable). -/
def natCharsAux : Nat → Nat → List Char
  | 0, _ => []
  | fuel + 1, n =>
    if n < 10 then [digitChar n]
    else natCharsAux fuel (n / 10) ++ [digitChar (n % 10)]

/-- Decimal digit characters of `n`, most significant first (the way JS
renders a nonnegative integer). -/
def natChars (n : Nat) : List Char := natCharsAux (n + 1) n

/-- ASCII whitespace skipped by JS number parsing. -/
def isWs (c : Char) : Bool :=
  c == ' ' || c == '\t' || c == '\n' || c == '\r'

/-- Leading optional sign: `(negative?, rest)`. -/
def parseSign : List Char → (Bool × List Char)
  | '-' :: rest => (true, rest)
  | '+' :: rest => (false, rest)
  | cs => (false, cs)

/-- `Rat` of a `Nat`, by direct construction (kernel-computable without the
cast instance chain). -/
def ratOfNat (n : Nat) : Rat :=
  ⟨Int.ofNat n, 1, one_ne_zero, Nat.coprime_one_right _⟩

/-- Digits, with an optional decimal point, at the head of the input:
`(value, rest)`, or `none` when no digit is found (JS `NaN`). -/
def parseMantissa (cs : List Char) : Option (Rat × List Char) :=
  let ip := cs.takeWhile Char.isDigit
  let rest := cs.dropWhile Char.isDigit
  match rest with
  | '.' :: rest2 =>
    let fp := rest2.takeWhile Char.isDigit
    let rest3 := rest2.dropWhile Char.isDigit
    if ip.isEmpty && fp.isEmpty then none
    else some (ratOfNat (digitsToNat ip)
      + ratOfNat (digitsToNat fp) / ((10 : Rat) ^ fp.length), rest3)
  | _ => if ip.isEmpty then none else some (ratOfNat (digitsToNat ip), rest)

/-- An exponent part `e±ddd` at the head of the input: `(power, rest)`.
A malformed exponent part contributes nothing (power `0`), as in
`parseFloat("1e")`. -/
def parseExpPart (cs : List Char) : (Int × List Char) :=
  match cs with
  | 'e' :: rest => parseExpDigits rest cs
  | 'E' :: rest => parseExpDigits rest cs
  | _ => (0, cs)
where
  parseExpDigits (rest orig : List Char) : (Int × List Char) :=
    let (neg, ds) := parseSign rest
    let digits := ds.takeWhile Char.isDigit
    if digits.isEmpty then (0, orig)
    else ((if neg then -(digitsToNat digits : Int) else (digitsToNat digits : Int)),
      ds.dropWhile Char.isDigit)

/-- JS `parseFloat` on a string: longest numeric-literal prefix after leading
whitespace, `none` for NaN. -/
def parseFloatStr (s : String) : Option Rat :=
  let cs := (s.toList).dropWhile isWs
  let (neg, cs1) := parseSign cs
  match parseMantissa cs1 with
  | none => none
  | some (m, rest) =>
    let (e, _) := parseExpPart rest
    let v := m * (10 : Rat) ^ e
    some (if neg then -v else v)

/-- JS `parseFloat(x)`: the argument is first coerced to a string; a finite
number round-trips through its decimal representation, `null` gives the
string `"null"` (hence NaN), and `NaN` stays NaN. -/
def parseFloat (v : JsVal) : PFloat :=
  match v with
  | .null => .nan
  | .nan => .nan
  | .num q => .num q
  | .str s => match parseFloatStr s with
    | some q => .num q
    | none => .nan

/-- JS `Number(text)` on a string: trims whitespace, maps `""` to `0`, and
requires the whole remaining text to be one numeric literal (else NaN). -/
def jsNumberStr (s : String) : JsVal :=
  let cs := ((s.toList).dropWhile isWs).reverse.dropWhile isWs |>.reverse
  if cs.isEmpty then .num 0
  else
    let (neg, cs1) := parseSign cs
    match parseMantissa cs1 with
    | none => .nan
    | some (m, rest) =>
      let (e, rest2) := parseExpPart rest
      if rest2.isEmpty then
        let v := m * (10 : Rat) ^ e
        .num (if neg then -v else v)
      else .nan

/-- JS `String.prototype.includes`, on exploded strings. -/
def listStartsWith : List Char → List Char → Bool
  | [], _ => true
  | _ :: _, [] => false
  | c :: ns, h :: hs => c == h && listStartsWith ns hs

/-- Whether `needle` occurs somewhere in `hay` (helper for `jsIncludes`). -/
def listHasSub (needle : List Char) : List Char → Bool
  | [] => listStartsWith needle []
  | h :: hs => listStartsWith needle (h :: hs) || listHasSub needle hs

/-- JS `hay.includes(needle)`. -/
def jsIncludes (hay needle : String) : Bool :=
  listHasSub needle.toList hay.toList

/-- Two decimal digits (`m < 100`), as in the fraction part of `toFixed(2)`. -/
def twoDigits (m : Nat) : List Char :=
  [digitChar (m / 10 % 10), digitChar (m % 10)]

/-- JS `x.toFixed(2)`: round to the nearest hundredth, ties away from zero
(the sign is processed separately, so `-0.001` renders as `"-0.00"`). -/
def toFixed2 (q : Rat) : String :=
  let m : Nat := ((|q| * 100 + 1 / 2).floor).toNat
  let s := String.mk (natChars (m / 100) ++ '.' :: twoDigits (m % 100))
  if q < 0 then "-" ++ s else s

/-- The number `x.toFixed(2)` denotes, for `0 ≤ x`: `x` rounded to the
nearest hundredth, ties up. -/
def roundTo2 (q : Rat) : Rat :=
  ratOfNat ((|q| * 100 + 1 / 2).floor).toNat / 100

/-! ## The DOM fragment -/

/-- A forest of parsed XML elements: each element carries its tag name, its
own text and a forest of child elements, followed by its right siblings.
(A first-class forest rather than a nested `List` keeps every traversal
structurally recursive, hence kernel-computable.) -/
inductive XmlForest where
  | nil
  | cons (name : String) (text : String) (children : XmlForest) (rest : XmlForest)
deriving DecidableEq, Repr

/-- A parsed XML element: tag name, own text, child elements. -/
structure XmlNode where
  name : String
  text : String
  children : XmlForest
deriving DecidableEq, Repr

/-- Tag name of an element (`node.nodeName`). -/
def XmlNode.nodeName (n : XmlNode) : String := n.name

/-- The forest holding the given elements as siblings, in order. -/
def forestOfList : List XmlNode → XmlForest
  | [] => .nil
  | n :: rest => .cons n.name n.text n.children (forestOfList rest)

/-- First element with the given tag in a forest, depth-first in document
order (a node counts before its subtree, a subtree before the right
siblings). -/
def findInForest (tag : String) : XmlForest → Option XmlNode
  | .nil => none
  | .cons n t cs rest =>
    if n = tag then some ⟨n, t, cs⟩
    else match findInForest tag cs with
      | some r => some r
      | none => findInForest tag rest

/-- `element.querySelector(tag)`: first matching descendant (the element
itself is excluded, as in the DOM). -/
def querySelector (el : XmlNode) (tag : String) : Option XmlNode :=
  findInForest tag el.children

/-- `document.querySelector(tag)` on the document holding `doc` as its root
element: the root itself is a candidate. -/
def docFind (doc : XmlNode) (tag : String) : Option XmlNode :=
  findInForest tag (.cons doc.name doc.text doc.children .nil)

/-- `textContent` over a forest, in document order. -/
def textContentF : XmlForest → String
  | .nil => ""
  | .cons _ t cs rest => t ++ textContentF cs ++ textContentF rest

/-- `node.textContent`: all text of the subtree, in document order. -/
def textContent (n : XmlNode) : String := n.text ++ textContentF n.children

/-- `getElementText` of the decoders: text of the first matching descendant,
`null` when absent. -/
def getElementText (element : XmlNode) (tagName : String) : Option String :=
  match querySelector element tagName with
  | some node => some (textContent node)
  | none => none

/-- `getElementNumber` of the decoders: the numeric-or-null read of a leaf.
Absent or empty text is `null`; otherwise the text goes through `Number`. -/
def getElementNumber (element : XmlNode) (tagName : String) : JsVal :=
  match getElementText element tagName with
  | some text => if text = "" then JsVal.null else jsNumberStr text
  | none => JsVal.null

/-! ## Decoded message records (`msgClasses.js`) -/

/-- The `MsgInfo` block common to all four message kinds. -/
structure MsgInfoS where
  SenderCode : Option String
  ReceiverCode : Option String
  CreatedBy : Option String
  SequenceNr : JsVal
  DateTime : Option String
  Status : JsVal
deriving DecidableEq, Repr

/-- An `EF` / `IF` factor block. -/
structure FactorS where
  FactorCode : Option String
  FactorName : Option String
deriving DecidableEq, Repr

/-- The `Seller` block of MSG01. -/
structure Seller01S where
  SellerNr : Option String
  SellerName : Option String
  NameCont : Option String
  Street : Option String
  City : Option String
  State : Option String
  Postcode : Option String
  Country : Option String
deriving DecidableEq, Repr

/-- The two-field `Seller` block of MSG02 / MSG05 / MSG07. -/
structure SellerRefS where
  SellerNr : Option String
  SellerName : Option String
deriving DecidableEq, Repr

/-- The `SellerDetails` block of MSG01. -/
structure SellerDetailsS where
  BusinessProduct : Option String
  NetPmtTerms : JsVal
  Discount1Days : JsVal
  Discount2Days : JsVal
  GracePeriod : JsVal
  InvCurrency1 : Option String
  ChargeBackPerc : JsVal
  ChargeBackAmt : JsVal
  ChargeBackCurrency : Option String
  ExpTotSellerTurnover : JsVal
  ExpNrBuyers : JsVal
  ExpNrInvoices : JsVal
  ExpNrCreditNotes : JsVal
  ExpTurnover : JsVal
  ExpOtherTurnover : JsVal
  OtherFactors : JsVal
  ServiceRequired : JsVal
deriving DecidableEq, Repr

/-- The `Buyer` block of MSG02. -/
structure Buyer02S where
  BuyerNr : Option String
  BuyerName : Option String
  Street : Option String
  City : Option String
  State : Option String
  Postcode : Option String
  Country : Option String
  DirectContact : JsVal
deriving DecidableEq, Repr

/-- The `Buyer` block of MSG05. -/
structure Buyer05S where
  BuyerCompanyRegNr : JsVal
  BuyerNr : Option String
  BuyerName : Option String
  Street : Option String
  City : Option String
  Postcode : Option String
  Country : Option String
  DirectContact : JsVal
  Telephone : Option String
deriving DecidableEq, Repr

/-- The `Buyer` block of MSG07. -/
structure Buyer07S where
  BuyerNr : Option String
  BuyerName : Option String
deriving DecidableEq, Repr

/-- The `PrelCreditAssessDetails` block of MSG02. -/
structure PrelCreditAssessDetailsS where
  AmtCreditAssessReq : JsVal
  Currency : Option String
  NetPmtTerms : JsVal
  Discount1Days : JsVal
  Discount2Days : JsVal
deriving DecidableEq, Repr

/-- The `CreditCoverDetails` block of MSG05. -/
structure CreditCoverDetailsS where
  Request : JsVal
  NewCreditCoverAmt : JsVal
  Currency : Option String
  OwnRiskAmt : JsVal
  OwnRiskPerc : JsVal
  NetPmtTerms : JsVal
  Discount1Days : JsVal
  Discount1Perc : JsVal
  Discount2Days : JsVal
  Discount2Perc : JsVal
  OrderNr : JsVal
deriving DecidableEq, Repr

/-- The `CurrentCreditCoverDetails` block of MSG07. -/
structure CurrentCreditCoverDetailsS where
  CurrentCreditCoverAmt : JsVal
  Currency : Option String
deriving DecidableEq, Repr

/-- The `NewCreditCoverDetails` block of MSG07. -/
structure NewCreditCoverDetailsS where
  Request : JsVal
  NewCreditCoverAmt : JsVal
  ValidFrom : Option String
  LongCreditPeriodDays : JsVal
deriving DecidableEq, Repr

/-- A decoded MSG01 (reference record).  `bankDetailsSeller` keeps only the
presence flag: the source stores `{}` either way. -/
structure MSG01S where
  msgInfo : MsgInfoS
  ef : FactorS
  if_ : FactorS
  msgDate : Option String
  msgFunction : JsVal
  factAgreemSigned : Option String
  seller : Seller01S
  sellerDetails : SellerDetailsS
  bankDetailsSeller : Bool
  msgText : String
deriving DecidableEq, Repr

/-- A decoded MSG02 (preliminary credit assessment request). -/
structure MSG02S where
  msgInfo : MsgInfoS
  ef : FactorS
  if_ : FactorS
  requestDate : Option String
  requestNr : Option String
  msgFunction : JsVal
  seller : SellerRefS
  buyer : Buyer02S
  bankDetailsBuyer : Bool
  prelCreditAssessDetails : PrelCreditAssessDetailsS
  msgText : String
deriving DecidableEq, Repr

/-- A decoded MSG05 (credit cover request). -/
structure MSG05S where
  msgInfo : MsgInfoS
  ef : FactorS
  if_ : FactorS
  requestDate : Option String
  requestNr : Option String
  msgFunction : JsVal
  seller : SellerRefS
  buyer : Buyer05S
  bankDetailsBuyer : Bool
  creditCoverDetails : CreditCoverDetailsS
  msgText : String
deriving DecidableEq, Repr

/-- A decoded MSG07 (credit cover update). -/
structure MSG07S where
  msgInfo : MsgInfoS
  ef : FactorS
  if_ : FactorS
  requestDate : Option String
  requestNr : Option String
  msgFunction : JsVal
  seller : SellerRefS
  buyer : Buyer07S
  currentCreditCoverDetails : CurrentCreditCoverDetailsS
  newCreditCoverDetails : NewCreditCoverDetailsS
  ownRiskNewCreditCover : Bool
  msgText : String
deriving DecidableEq, Repr

/-- Extraction of the `MsgInfo` block (shared verbatim by all four
decoders). -/
def readMsgInfo (msgInfoElement : XmlNode) : MsgInfoS :=
  { SenderCode := getElementText msgInfoElement "SenderCode",
    ReceiverCode := getElementText msgInfoElement "ReceiverCode",
    CreatedBy := getElementText msgInfoElement "CreatedBy",
    SequenceNr := getElementNumber msgInfoElement "SequenceNr",
    DateTime := getElementText msgInfoElement "DateTime",
    Status := getElementNumber msgInfoElement "Status" }

/-- Extraction of an `EF` / `IF` block. -/
def readFactor (el : XmlNode) : FactorS :=
  { FactorCode := getElementText el "FactorCode",
    FactorName := getElementText el "FactorName" }

/-- `MSG01.fromXMLString`, on the already-parsed fragment: structural
validation (each required section in turn, with the source's error message),
then field extraction. -/
def decodeMSG01 (doc : XmlNode) : Except String MSG01S :=
  match docFind doc "MSG01" with
  | none => .error "Invalid MSG01 XML structure: Root <MSG01> element not found."
  | some root =>
  match querySelector root "MsgInfo" with
  | none => .error "Invalid MSG01 XML structure: <MsgInfo> element not found."
  | some msgInfoElement =>
  match querySelector root "EF" with
  | none => .error "Invalid MSG01 XML structure: <EF> element not found."
  | some efElement =>
  match querySelector root "IF" with
  | none => .error "Invalid MSG01 XML structure: <IF> element not found."
  | some ifElement =>
  match querySelector root "Seller" with
  | none => .error "Invalid MSG01 XML structure: <Seller> element not found."
  | some sellerElement =>
  match querySelector root "SellerDetails" with
  | none => .error "Invalid MSG01 XML structure: <SellerDetails> element not found."
  | some sellerDetailsElement =>
  .ok { msgInfo := readMsgInfo msgInfoElement,
          ef := readFactor efElement,
          if_ := readFactor ifElement,
          msgDate := getElementText root "MsgDate",
          msgFunction := getElementNumber root "MsgFunction",
          factAgreemSigned := getElementText root "FactAgreemSigned",
          seller :=
          { SellerNr := getElementText sellerElement "SellerNr",
            SellerName := getElementText sellerElement "SellerName",
            NameCont := getElementText sellerElement "NameCont",
            Street := getElementText sellerElement "Street",
            City := getElementText sellerElement "City",
            State := getElementText sellerElement "State",
            Postcode := getElementText sellerElement "Postcode",
            Country := getElementText sellerElement "Country" },
          sellerDetails :=
          { BusinessProduct := getElementText sellerDetailsElement "BusinessProduct",
            NetPmtTerms := getElementNumber sellerDetailsElement "NetPmtTerms",
            Discount1Days := getElementNumber sellerDetailsElement "Discount1Days",
            Discount2Days := getElementNumber sellerDetailsElement "Discount2Days",
            GracePeriod := getElementNumber sellerDetailsElement "GracePeriod",
            InvCurrency1 := getElementText sellerDetailsElement "InvCurrency1",
            ChargeBackPerc := getElementNumber sellerDetailsElement "ChargeBackPerc",
            ChargeBackAmt := getElementNumber sellerDetailsElement "ChargeBackAmt",
            ChargeBackCurrency := getElementText sellerDetailsElement "ChargeBackCurrency",
            ExpTotSellerTurnover := getElementNumber sellerDetailsElement "ExpTotSellerTurnover",
            ExpNrBuyers := getElementNumber sellerDetailsElement "ExpNrBuyers",
            ExpNrInvoices := getElementNumber sellerDetailsElement "ExpNrInvoices",
            ExpNrCreditNotes := getElementNumber sellerDetailsElement "ExpNrCreditNotes",
            ExpTurnover := getElementNumber sellerDetailsElement "ExpTurnover",
            ExpOtherTurnover := getElementNumber sellerDetailsElement "ExpOtherTurnover",
            OtherFactors := getElementNumber sellerDetailsElement "OtherFactors",
            ServiceRequired := getElementNumber sellerDetailsElement "ServiceRequired" },
          bankDetailsSeller := (querySelector root "BankDetailsSeller").isSome,
          msgText := (getElementText root "MsgText").getD "" }

/-- `MSG02.fromXMLString`, on the already-parsed fragment. -/
def decodeMSG02 (doc : XmlNode) : Except String MSG02S :=
  match docFind doc "MSG02" with
  | none => .error "Invalid MSG02 XML structure: Root <MSG02> element not found."
  | some root =>
  match querySelector root "MsgInfo" with
  | none => .error "Invalid MSG02 XML structure: <MsgInfo> element not found."
  | some msgInfoElement =>
  match querySelector root "EF" with
  | none => .error "Invalid MSG02 XML structure: <EF> element not found."
  | some efElement =>
  match querySelector root "IF" with
  | none => .error "Invalid MSG02 XML structure: <IF> element not found."
  | some ifElement =>
  match querySelector root "Seller" with
  | none => .error "Invalid MSG02 XML structure: <Seller> element not found."
  | some sellerElement =>
  match querySelector root "Buyer" with
  | none => .error "Invalid MSG02 XML structure: <Buyer> element not found."
  | some buyerElement =>
  match querySelector root "PrelCreditAssessDetails" with
  | none => .error "Invalid MSG02 XML structure: <PrelCreditAssessDetails> element not found."
  | some prelCreditAssessDetailsElement =>
  .ok { msgInfo := readMsgInfo msgInfoElement,
          ef := readFactor efElement,
          if_ := readFactor ifElement,
          requestDate := getElementText root "RequestDate",
          requestNr := getElementText root "RequestNr",
          msgFunction := getElementNumber root "MsgFunction",
          seller :=
          { SellerNr := getElementText sellerElement "SellerNr",
            SellerName := getElementText sellerElement "SellerName" },
          buyer :=
          { BuyerNr := getElementText buyerElement "BuyerNr",
            BuyerName := getElementText buyerElement "BuyerName",
            Street := getElementText buyerElement "Street",
            City := getElementText buyerElement "City",
            State := getElementText buyerElement "State",
            Postcode := getElementText buyerElement "Postcode",
            Country := getElementText buyerElement "Country",
            DirectContact := getElementNumber buyerElement "DirectContact" },
          bankDetailsBuyer := (querySelector root "BankDetailsBuyer").isSome,
          prelCreditAssessDetails :=
          { AmtCreditAssessReq := getElementNumber prelCreditAssessDetailsElement "AmtCreditAssessReq",
            Currency := getElementText prelCreditAssessDetailsElement "Currency",
            NetPmtTerms := getElementNumber prelCreditAssessDetailsElement "NetPmtTerms",
            Discount1Days := getElementNumber prelCreditAssessDetailsElement "Discount1Days",
            Discount2Days := getElementNumber prelCreditAssessDetailsElement "Discount2Days" },
          msgText := (getElementText root "MsgText").getD "" }

/-- `MSG05.fromXMLString`, on the already-parsed fragment.  All six section
lookups happen first; one combined check raises a single generic error. -/
def decodeMSG05 (doc : XmlNode) : Except String MSG05S :=
  match docFind doc "MSG05" with
  | none => .error "Invalid MSG05 XML structure: Root <MSG05> element not found."
  | some root =>
  match querySelector root "MsgInfo", querySelector root "EF", querySelector root "IF",
    querySelector root "Seller", querySelector root "Buyer",
    querySelector root "CreditCoverDetails" with
  | some msgInfoElement, some efElement, some ifElement, some sellerElement,
    some buyerElement, some creditCoverDetailsElement =>
    .ok { msgInfo := readMsgInfo msgInfoElement,
            ef := readFactor efElement,
            if_ := readFactor ifElement,
            requestDate := getElementText root "RequestDate",
            requestNr := getElementText root "RequestNr",
            msgFunction := getElementNumber root "MsgFunction",
            seller :=
            { SellerNr := getElementText sellerElement "SellerNr",
              SellerName := getElementText sellerElement "SellerName" },
            buyer :=
            { BuyerCompanyRegNr := getElementNumber buyerElement "BuyerCompanyRegNr",
              BuyerNr := getElementText buyerElement "BuyerNr",
              BuyerName := getElementText buyerElement "BuyerName",
              Street := getElementText buyerElement "Street",
              City := getElementText buyerElement "City",
              Postcode := getElementText buyerElement "Postcode",
              Country := getElementText buyerElement "Country",
              DirectContact := getElementNumber buyerElement "DirectContact",
              Telephone := getElementText buyerElement "Telephone" },
            bankDetailsBuyer := (querySelector root "BankDetailsBuyer").isSome,
            creditCoverDetails :=
            { Request := getElementNumber creditCoverDetailsElement "Request",
              NewCreditCoverAmt := getElementNumber creditCoverDetailsElement "NewCreditCoverAmt",
              Currency := getElementText creditCoverDetailsElement "Currency",
              OwnRiskAmt := getElementNumber creditCoverDetailsElement "OwnRiskAmt",
              OwnRiskPerc := getElementNumber creditCoverDetailsElement "OwnRiskPerc",
              NetPmtTerms := getElementNumber creditCoverDetailsElement "NetPmtTerms",
              Discount1Days := getElementNumber creditCoverDetailsElement "Discount1Days",
              Discount1Perc := getElementNumber creditCoverDetailsElement "Discount1Perc",
              Discount2Days := getElementNumber creditCoverDetailsElement "Discount2Days",
              Discount2Perc := getElementNumber creditCoverDetailsElement "Discount2Perc",
              OrderNr := getElementNumber creditCoverDetailsElement "OrderNr" },
            msgText := (getElementText root "MsgText").getD "" }
  | _, _, _, _, _, _ => .error "Missing required elements in MSG05 XML."

/-- `MSG07.fromXMLString`, on the already-parsed fragment.  All seven section
lookups happen first; one combined check raises a single generic error. -/
def decodeMSG07 (doc : XmlNode) : Except String MSG07S :=
  match docFind doc "MSG07" with
  | none => .error "Invalid MSG07 XML structure: Root <MSG07> element not found."
  | some root =>
  match querySelector root "MsgInfo", querySelector root "EF", querySelector root "IF",
    querySelector root "Seller", querySelector root "Buyer",
    querySelector root "CurrentCreditCoverDetails",
    querySelector root "NewCreditCoverDetails" with
  | some msgInfoElement, some efElement, some ifElement, some sellerElement,
    some buyerElement, some currentCreditCoverDetailsElement,
    some newCreditCoverDetailsElement =>
    .ok { msgInfo := readMsgInfo msgInfoElement,
            ef := readFactor efElement,
            if_ := readFactor ifElement,
            requestDate := getElementText root "RequestDate",
            requestNr := getElementText root "RequestNr",
            msgFunction := getElementNumber root "MsgFunction",
            seller :=
            { SellerNr := getElementText sellerElement "SellerNr",
              SellerName := getElementText sellerElement "SellerName" },
            buyer :=
            { BuyerNr := getElementText buyerElement "BuyerNr",
              BuyerName := getElementText buyerElement "BuyerName" },
            currentCreditCoverDetails :=
            { CurrentCreditCoverAmt :=
                getElementNumber currentCreditCoverDetailsElement "CurrentCreditCoverAmt",
              Currency := getElementText currentCreditCoverDetailsElement "Currency" },
            newCreditCoverDetails :=
            { Request := getElementNumber newCreditCoverDetailsElement "Request",
              NewCreditCoverAmt := getElementNumber newCreditCoverDetailsElement "NewCreditCoverAmt",
              ValidFrom := getElementText newCreditCoverDetailsElement "ValidFrom",
              LongCreditPeriodDays :=
                getElementNumber newCreditCoverDetailsElement "LongCreditPeriodDays" },
            ownRiskNewCreditCover := (querySelector root "OwnRiskNewCreditCover").isSome,
            msgText := (getElementText root "MsgText").getD "" }
  | _, _, _, _, _, _, _ => .error "Missing required elements in MSG07 XML."

/-! ## The record store and the per-batch globals (`script.js`) -/

/-- `Map.prototype.set`: insert, or update in place on an existing key. -/
def mapSet {α : Type} (m : List (String × α)) (k : String) (v : α) :
    List (String × α) :=
  match m with
  | [] => [(k, v)]
  | (k1, v1) :: rest => if k1 = k then (k, v) :: rest else (k1, v1) :: mapSet rest k v

/-- `Map.prototype.get` (also used for JS object property lookup on the rate
table): first binding of the key, `undefined` as `none`. -/
def mapGet {α : Type} (m : List (String × α)) (k : String) : Option α :=
  match m with
  | [] => none
  | (k1, v1) :: rest => if k1 = k then some v1 else mapGet rest k

/-- A `${x}` template-literal piece: `null` interpolates as the string
`"null"`. -/
def jsTemplate : Option String → String
  | some s => s
  | none => "null"

/-- The correlation key `` `${SenderCode}_${SellerNr}` `` used for
`allMsg01s`. -/
def mkKey (senderCode sellerNr : Option String) : String :=
  jsTemplate senderCode ++ "_" ++ jsTemplate sellerNr

/-- The module-level mutable state of `script.js`: the four message
collections and the exchange-rate table. -/
structure GlobalState where
  allMsg01s : List (String × MSG01S)
  allMsg02s : List MSG02S
  allMsg05s : List MSG05S
  allMsg07s : List MSG07S
  exchangeRates : Option (List (String × Rat))
deriving Repr

/-- `resetGlobalMessageCollections`: clears the four message collections
(and only those). -/
def resetGlobalMessageCollections (s : GlobalState) : GlobalState :=
  { s with allMsg01s := [], allMsg02s := [], allMsg05s := [], allMsg07s := [] }

/-- The rate-fetch step of the click handler: a successful response installs
its rate table; a network or API failure is caught and only logged, leaving
`exchangeRates` as it was. -/
def applyRateFetch (s : GlobalState) (response : Option (List (String × Rat))) :
    GlobalState :=
  match response with
  | some rates => { s with exchangeRates := some rates }
  | none => s

/-- One of the four decoded message kinds, as stored by the per-node loop. -/
inductive DecodedMsg where
  | m01 (m : MSG01S)
  | m02 (m : MSG02S)
  | m05 (m : MSG05S)
  | m07 (m : MSG07S)
deriving DecidableEq, Repr

/-- Dispatch of the per-node loop: pick the decoder by `node.nodeName` and
hand it the fragment (the source serializes via `node.outerHTML` and
reparses, which round-trips to the same tree); `none` is a decode error
thrown and caught (the fragment is skipped). -/
def dispatchDecode (node : XmlNode) : Option DecodedMsg :=
  if node.nodeName = "MSG01" then (decodeMSG01 node).toOption.map DecodedMsg.m01
  else if node.nodeName = "MSG02" then (decodeMSG02 node).toOption.map DecodedMsg.m02
  else if node.nodeName = "MSG05" then (decodeMSG05 node).toOption.map DecodedMsg.m05
  else if node.nodeName = "MSG07" then (decodeMSG07 node).toOption.map DecodedMsg.m07
  else none

/-- The body of `msgNodes.forEach`: decode one fragment and store the
record; a decode error leaves every collection unchanged. -/
def processNode (s : GlobalState) (node : XmlNode) : GlobalState :=
  match dispatchDecode node with
  | some (.m01 m) =>
    { s with allMsg01s := mapSet s.allMsg01s (mkKey m.msgInfo.SenderCode m.seller.SellerNr) m }
  | some (.m02 m) => { s with allMsg02s := s.allMsg02s ++ [m] }
  | some (.m05 m) => { s with allMsg05s := s.allMsg05s ++ [m] }
  | some (.m07 m) => { s with allMsg07s := s.allMsg07s ++ [m] }
  | none => s

/-- All message fragments of a batch, processed in document order. -/
def processBatch (s : GlobalState) (nodes : List XmlNode) : GlobalState :=
  nodes.foldl processNode s

/-! ## Currency conversion and classification (`script.js`) -/

/-- JS `toUpperCase()` (ASCII range, which covers the 3-letter currency
codes this program handles), kept kernel-computable by mapping over the
character list. -/
def jsToUpper (s : String) : String := String.mk (s.toList.map Char.toUpper)

/-- `convertToUSD(amount, currency, rates)`, step for step: the blank result
for an empty amount, `"N/A"` for a missing currency, `"Invalid Amount"` for a
non-numeric amount, `"Failed to fetch rates"` when no table was fetched,
pass-through for USD, the `"(No Rate)"` placeholder when the table has no
usable rate (JS `!rate` also treats an explicit rate of `0` as missing), and
otherwise the converted number. -/
def convertToUSD (amount : JsVal) (currency : Option String)
    (rates : Option (List (String × Rat))) : JsVal :=
  if amount = JsVal.null ∨ amount = JsVal.str "" then .str " "
  else match currency with
  | none => .str "N/A"
  | some cur =>
    if cur = "" then .str "N/A"
    else match parseFloat amount with
    | .nan => .str "Invalid Amount"
    | .num numericAmount =>
      match rates with
      | none => .str "Failed to fetch rates"
      | some table =>
        if jsToUpper cur = "USD" then amount
        else match mapGet table (jsToUpper cur) with
        | none => .str (toFixed2 numericAmount ++ " " ++ cur ++ " (No Rate)")
        | some rate =>
          if rate = 0 then .str (toFixed2 numericAmount ++ " " ++ cur ++ " (No Rate)")
          else .num (numericAmount / rate)

/-- The allowlisted countries of rule 2. -/
def treyCountryCodes : List String :=
  ["AM", "EG", "GR", "IN", "MT", "RO", "TW", "TR", "VN"]

/-- The three countries whose assignment also depends on the partner name. -/
def treySpecialCodes : List String := ["SG", "JP", "US"]

/-- `getCreditManager(countryCode, creditLine, factorName)`.  The result is
`none` exactly when JS would throw a `TypeError`: a null `factorName`
dereferenced by `.includes` inside the special-codes branch. -/
def getCreditManager (countryCode : String) (creditLine : JsVal)
    (factorName : Option String) : Option String :=
  match parseFloat creditLine with
  | .nan => some "N/A"
  | .num numericCreditLine =>
    if numericCreditLine ≤ 500000 then some "lux"
    else if treyCountryCodes.contains countryCode then some "trey"
    else if treySpecialCodes.contains countryCode then
      match factorName with
      | none => none
      | some fn =>
        if countryCode = "SG" && jsIncludes fn "Mogli" then some "trey"
        else if countryCode = "JP" &&
            (jsIncludes fn "Mitsubishi" || jsIncludes fn "Sumitomo Mitsui") then some "trey"
        else if countryCode = "US" &&
            jsIncludes fn "Standard Chartered Bank New York" then some "trey"
        else some "bost"
    else some "bost"

/-! ## The join-and-enrich pipeline (`generateCombinedDisplayData`) -/

/-- One output row, with every column the source row object carries.
Fields that JS may leave as `null` are `Option String`. -/
structure Row where
  requestDate : String
  dateReceived : String
  reminder : String
  newAcctNameAddressChange : String
  cancellation : String
  buyerName : Option String
  buyerCountry : String
  sellerName : Option String
  sellerCountry : String
  partnerName : Option String
  partnerCountry : String
  messageType : String
  amountReq : JsVal
  currency : Option String
  term : JsVal
  contactAllowed : String
  msgFunctionCode : String
  amtApproved : String
  msg3ExpirationDate : String
  insurance : String
  responseDate : String
  ofacDate : String
  rate : String
  incomingComments : String
  creditComments : String
  aeComments : String
  daysToRespond : String
  creditManager : String
  aeCso : String
  industryProduct : Option String
  clientCode : Option String
  amountReqUSD : String
deriving DecidableEq, Repr

/-- A transactional message, as iterated by the pipeline. -/
inductive TMsg where
  | t02 (m : MSG02S)
  | t05 (m : MSG05S)
  | t07 (m : MSG07S)
deriving DecidableEq, Repr

/-- `msg.msgInfo`, common to the three variants. -/
def TMsg.msgInfo : TMsg → MsgInfoS
  | .t02 m => m.msgInfo
  | .t05 m => m.msgInfo
  | .t07 m => m.msgInfo

/-- `msg.seller`, common to the three variants. -/
def TMsg.seller : TMsg → SellerRefS
  | .t02 m => m.seller
  | .t05 m => m.seller
  | .t07 m => m.seller

/-- `msg.ef`, common to the three variants. -/
def TMsg.ef : TMsg → FactorS
  | .t02 m => m.ef
  | .t05 m => m.ef
  | .t07 m => m.ef

/-- `msg.msgText`, common to the three variants. -/
def TMsg.msgText : TMsg → String
  | .t02 m => m.msgText
  | .t05 m => m.msgText
  | .t07 m => m.msgText

/-- `msg.requestDate`, common to the three variants. -/
def TMsg.requestDate : TMsg → Option String
  | .t02 m => m.requestDate
  | .t05 m => m.requestDate
  | .t07 m => m.requestDate

/-- `msg.buyer.BuyerName` (the buyer block exists in all variants). -/
def TMsg.buyerName : TMsg → Option String
  | .t02 m => m.buyer.BuyerName
  | .t05 m => m.buyer.BuyerName
  | .t07 m => m.buyer.BuyerName

/-- `msg.buyer.Country || ''` — the MSG07 buyer has no such property
(`undefined`), so it fals back to the empty string. -/
def TMsg.buyerCountryD : TMsg → String
  | .t02 m => (m.buyer.Country).getD ""
  | .t05 m => (m.buyer.Country).getD ""
  | .t07 _ => ""

/-- Truthiness of a nullable JS string (`null`, `undefined` and `""` are
falsy). -/
def jsTruthyStr : Option String → Bool
  | some s => s ≠ ""
  | none => false

/-- JS loose equality `v == 1` over the values `DirectContact` can hold. -/
def jsLooseEqOne (v : JsVal) : Bool :=
  match v with
  | .num q => q == 1
  | .str s => jsNumberStr s == JsVal.num 1
  | _ => false

/-- The variant-specific `(amountReq, currency, term, contactAllowed)`
selection of the pipeline. -/
def TMsg.payment : TMsg → (JsVal × Option String × JsVal × String)
  | .t02 m =>
    (m.prelCreditAssessDetails.AmtCreditAssessReq, m.prelCreditAssessDetails.Currency,
      m.prelCreditAssessDetails.NetPmtTerms,
      if jsLooseEqOne m.buyer.DirectContact then "Yes" else "No")
  | .t05 m =>
    (m.creditCoverDetails.NewCreditCoverAmt, m.creditCoverDetails.Currency,
      m.creditCoverDetails.NetPmtTerms,
      if jsLooseEqOne m.buyer.DirectContact then "Yes" else "No")
  | .t07 m =>
    (m.newCreditCoverDetails.NewCreditCoverAmt, m.currentCreditCoverDetails.Currency,
      m.newCreditCoverDetails.LongCreditPeriodDays, "No")

/-- `msgType.slice(-1)`: the digit of the message kind. -/
def TMsg.kindDigit : TMsg → String
  | .t02 _ => "2"
  | .t05 _ => "5"
  | .t07 _ => "7"

/-- One iteration of the pipeline loop: build the row for one transactional
message.  `regionOf` is the external `Intl.DisplayNames` region lookup.
`none` models the two `TypeError`s the loop can raise (a null `FactorCode`
under `.substring`, a null partner name under `.includes`). -/
def buildRow (regionOf : String → String)
    (exchangeRates : Option (List (String × Rat)))
    (allMsg01s : List (String × MSG01S)) (msg : TMsg) : Option Row :=
  let key := mkKey msg.msgInfo.SenderCode msg.seller.SellerNr
  let matchedMsg01 := mapGet allMsg01s key
  let (amountReq, currency, term, contactAllowed) := msg.payment
  match msg.ef.FactorCode with
  | none => none
  | some fc =>
    let exportFactorCodeCharacters := fc.take 2
    let partnerCountry :=
      if exportFactorCodeCharacters ≠ "" then regionOf exportFactorCodeCharacters else ""
    let creditAmountUSDformat := convertToUSD amountReq currency exchangeRates
    match getCreditManager exportFactorCodeCharacters creditAmountUSDformat
        msg.ef.FactorName with
    | none => none
    | some cm =>
      some
      { requestDate := (msg.requestDate).getD "",
        dateReceived :=
          if jsTruthyStr msg.msgInfo.DateTime then ((msg.msgInfo.DateTime).getD "").take 10
          else "",
        reminder := "No",
        newAcctNameAddressChange := "No",
        cancellation := "No",
        buyerName := msg.buyerName,
        buyerCountry := msg.buyerCountryD,
        sellerName := msg.seller.SellerName,
        sellerCountry := partnerCountry,
        partnerName := msg.ef.FactorName,
        partnerCountry := partnerCountry,
        messageType := msg.kindDigit,
        amountReq := amountReq,
        currency := currency,
        term := term,
        contactAllowed := contactAllowed,
        msgFunctionCode := "",
        amtApproved := "",
        msg3ExpirationDate := "",
        insurance := "",
        responseDate := "",
        ofacDate := "",
        rate := "",
        incomingComments := msg.msgText,
        creditComments := "",
        aeComments := "",
        daysToRespond := "",
        creditManager := cm,
        aeCso := "",
        industryProduct :=
          match matchedMsg01 with
          | some m01 => m01.sellerDetails.BusinessProduct
          | none => some "",
        clientCode := msg.ef.FactorCode,
        amountReqUSD := "" }

/-- Leap year, Gregorian rules. -/
def isLeap (y : Nat) : Bool :=
  (y % 4 == 0 && y % 100 != 0) || y % 400 == 0

/-- Days of a month (`1 ≤ m ≤ 12`). -/
def daysInMonth (y m : Nat) : Nat :=
  if m = 2 then (if isLeap y then 29 else 28)
  else if m = 4 ∨ m = 6 ∨ m = 9 ∨ m = 11 then 30
  else 31

/-- `new Date(s)` on a `dateReceived` value: a strict `YYYY-MM-DD` string
gives a time value, anything else is an Invalid Date (`none`).  The encoding
`y*10000 + m*100 + d` is strictly increasing in the calendar date, so it
orders exactly like the epoch milliseconds the JS comparator subtracts. -/
def parseISODate (s : String) : Option Int :=
  match s.toList with
  | [y1, y2, y3, y4, '-', m1, m2, '-', d1, d2] =>
    if y1.isDigit && y2.isDigit && y3.isDigit && y4.isDigit &&
        m1.isDigit && m2.isDigit && d1.isDigit && d2.isDigit then
      let y := digitsToNat [y1, y2, y3, y4]
      let m := digitsToNat [m1, m2]
      let d := digitsToNat [d1, d2]
      if 1 ≤ m ∧ m ≤ 12 ∧ 1 ≤ d ∧ d ≤ daysInMonth y m then
        some ((y * 10000 + m * 100 + d : Nat) : Int)
      else none
    else none
  | _ => none

/-- Sort key of a row.  For a valid date this is its (order-isomorphic) time
value; an Invalid Date yields NaN in the JS comparator, which the JS sort
treats as 0 ("equal") and whose overall result is then implementation
defined — the model maps it to a fixed key, one admissible behavior. -/
def dateKeyD (s : String) : Int :=
  (parseISODate s).getD 0

/-- The comparator `(a, b) => new Date(a.dateReceived) - new Date(b.dateReceived)`
as a binary `le`. -/
def rowLe (a b : Row) : Bool :=
  decide (dateKeyD a.dateReceived ≤ dateKeyD b.dateReceived)

/-- `combinedData.sort(...)`: ES2019 `Array.prototype.sort` is a stable sort
with respect to a consistent comparator, modelled by `mergeSort`. -/
def sortRows (rows : List Row) : List Row :=
  rows.mergeSort rowLe

/-- The loop over the combined transactional messages: build each row in
order; the first `TypeError` (`none`) aborts the whole call, as an uncaught
exception would. -/
def buildRows (f : TMsg → Option Row) : List TMsg → Option (List Row)
  | [] => some []
  | t :: rest =>
    match f t with
    | none => none
    | some r =>
      match buildRows f rest with
      | none => none
      | some rs => some (r :: rs)

/-- `generateCombinedDisplayData()`: iterate `[...allMsg02s, ...allMsg05s,
...allMsg07s]` in store order, build a row per transactional record, then
stable-sort by `dateReceived`.  `none` models an uncaught `TypeError` in the
loop. -/
def generateCombinedDisplayData (regionOf : String → String) (s : GlobalState) :
    Option (List Row) :=
  let msgs := s.allMsg02s.map TMsg.t02 ++ s.allMsg05s.map TMsg.t05 ++
    s.allMsg07s.map TMsg.t07
  match buildRows (buildRow regionOf s.exchangeRates s.allMsg01s) msgs with
  | some rows => some (sortRows rows)
  | none => none

/-! ## Concrete fixtures (used by witnesses and counterexamples) -/

/-- A leaf element. -/
def leaf (tag txt : String) : XmlNode := ⟨tag, txt, XmlForest.nil⟩

/-- A structurally complete MSG02 fragment (numeric leaves left empty, which
the numeric-or-null rule reads as null). -/
def fixGoodMSG02 : XmlNode :=
  ⟨"MSG02", "", forestOfList [
    ⟨"MsgInfo", "", forestOfList [leaf "SenderCode" "SENDERX", leaf "ReceiverCode" "RECVY",
      leaf "CreatedBy" "ops", leaf "SequenceNr" "", leaf "DateTime" "2024-05-01T10:00:00",
      leaf "Status" ""]⟩,
    ⟨"EF", "", forestOfList [leaf "FactorCode" "DE001", leaf "FactorName" "Some Factor"]⟩,
    ⟨"IF", "", forestOfList [leaf "FactorCode" "US002", leaf "FactorName" "Import Factor"]⟩,
    leaf "RequestDate" "2024-04-30", leaf "RequestNr" "R1", leaf "MsgFunction" "",
    ⟨"Seller", "", forestOfList [leaf "SellerNr" "S77", leaf "SellerName" "Acme"]⟩,
    ⟨"Buyer", "", forestOfList [leaf "BuyerNr" "B1", leaf "BuyerName" "Buyer Co",
      leaf "Street" "Main 1", leaf "City" "Bonn", leaf "State" "", leaf "Postcode" "12345",
      leaf "Country" "DE", leaf "DirectContact" ""]⟩,
    ⟨"PrelCreditAssessDetails", "", forestOfList [leaf "AmtCreditAssessReq" "",
      leaf "Currency" "EUR", leaf "NetPmtTerms" ""]⟩]⟩

/-- The record `fixGoodMSG02` decodes to. -/
def fixGoodMSG02Rec : MSG02S :=
  { msgInfo := { SenderCode := some "SENDERX",
                 ReceiverCode := some "RECVY",
                 CreatedBy := some "ops",
                 SequenceNr := JsVal.null,
                 DateTime := some "2024-05-01T10:00:00",
                 Status := JsVal.null },
    ef := { FactorCode := some "DE001", FactorName := some "Some Factor" },
    if_ := { FactorCode := some "US002", FactorName := some "Import Factor" },
    requestDate := some "2024-04-30",
    requestNr := some "R1",
    msgFunction := JsVal.null,
    seller := { SellerNr := some "S77", SellerName := some "Acme" },
    buyer := { BuyerNr := some "B1",
               BuyerName := some "Buyer Co",
               Street := some "Main 1",
               City := some "Bonn",
               State := some "",
               Postcode := some "12345",
               Country := some "DE",
               DirectContact := JsVal.null },
    bankDetailsBuyer := false,
    prelCreditAssessDetails := { AmtCreditAssessReq := JsVal.null,
                                 Currency := some "EUR",
                                 NetPmtTerms := JsVal.null,
                                 Discount1Days := JsVal.null,
                                 Discount2Days := JsVal.null },
    msgText := "" }

/-- An MSG05 fragment with every required section except `Buyer`. -/
def fixMSG05NoBuyer : XmlNode :=
  ⟨"MSG05", "", forestOfList [
    ⟨"MsgInfo", "", XmlForest.nil⟩, ⟨"EF", "", XmlForest.nil⟩, ⟨"IF", "", XmlForest.nil⟩,
    ⟨"Seller", "", XmlForest.nil⟩, ⟨"CreditCoverDetails", "", XmlForest.nil⟩]⟩

/-- An MSG01 fragment whose `MsgInfo` section is missing. -/
def fixMSG01NoMsgInfo : XmlNode :=
  ⟨"MSG01", "", forestOfList [
    ⟨"EF", "", XmlForest.nil⟩, ⟨"IF", "", XmlForest.nil⟩,
    ⟨"Seller", "", XmlForest.nil⟩, ⟨"SellerDetails", "", XmlForest.nil⟩]⟩

/-- An element whose `NetPmtTerms` leaf holds non-numeric text. -/
def fixUnparsableLeaf : XmlNode :=
  ⟨"SellerDetails", "", forestOfList [leaf "NetPmtTerms" "abc"]⟩

/-! ## Helper lemmas: digits and decimal parsing -/

theorem charDigit_digitChar {d : Nat} (h : d < 10) : charDigit (digitChar d) = d := by
  interval_cases d <;> rfl

theorem isDigit_digitChar {d : Nat} (h : d < 10) : (digitChar d).isDigit = true := by
  interval_cases d <;> rfl

theorem digitsToNat_append (l : List Char) (c : Char) :
    digitsToNat (l ++ [c]) = 10 * digitsToNat l + charDigit c := by
  simp [digitsToNat, List.foldl_append]

theorem digitsToNat_natCharsAux :
    ∀ (fuel n : Nat), n < fuel → digitsToNat (natCharsAux fuel n) = n
  | 0, n, h => absurd h (Nat.not_lt_zero n)
  | fuel + 1, n, h => by
    unfold natCharsAux
    by_cases h10 : n < 10
    · simp only [h10, if_true]
      simp [digitsToNat, charDigit_digitChar h10]
    · have hn : 0 < n := by omega
      have hlt : n / 10 < fuel := by
        have := Nat.div_lt_self hn (by omega : 1 < 10)
        omega
      simp only [h10, if_false]
      rw [digitsToNat_append, digitsToNat_natCharsAux fuel (n / 10) hlt,
        charDigit_digitChar (Nat.mod_lt n (by omega))]
      omega

theorem digitsToNat_natChars (n : Nat) : digitsToNat (natChars n) = n :=
  digitsToNat_natCharsAux (n + 1) n (Nat.lt_succ_self n)

theorem natCharsAux_digits :
    ∀ (fuel n : Nat), ∀ c ∈ natCharsAux fuel n, c.isDigit = true
  | 0, _, c, hc => absurd hc (by simp [natCharsAux])
  | fuel + 1, n, c, hc => by
    unfold natCharsAux at hc
    by_cases h10 : n < 10
    · simp only [h10, if_true, List.mem_singleton] at hc
      exact hc ▸ isDigit_digitChar h10
    · simp only [h10, if_false, List.mem_append, List.mem_singleton] at hc
      rcases hc with hc | hc
      · exact natCharsAux_digits fuel (n / 10) c hc
      · exact hc ▸ isDigit_digitChar (Nat.mod_lt n (by omega))

theorem natChars_digits (n : Nat) : ∀ c ∈ natChars n, c.isDigit = true :=
  natCharsAux_digits (n + 1) n

theorem natChars_ne_nil (n : Nat) : natChars n ≠ [] := by
  unfold natChars natCharsAux
  by_cases h10 : n < 10 <;> simp [h10]

theorem takeWhile_all_append {p : Char → Bool} {l1 : List Char} (x : Char) (l2 : List Char)
    (h1 : ∀ c ∈ l1, p c = true) (hx : p x = false) :
    (l1 ++ x :: l2).takeWhile p = l1 := by
  induction l1 with
  | nil => simp [List.takeWhile, hx]
  | cons a l ih =>
    have ha : p a = true := h1 a (by simp)
    simp only [List.cons_append, List.takeWhile_cons, ha, if_true]
    rw [ih (fun c hc => h1 c (by simp [hc]))]

theorem dropWhile_all_append {p : Char → Bool} {l1 : List Char} (x : Char) (l2 : List Char)
    (h1 : ∀ c ∈ l1, p c = true) (hx : p x = false) :
    (l1 ++ x :: l2).dropWhile p = x :: l2 := by
  induction l1 with
  | nil => simp [List.dropWhile, hx]
  | cons a l ih =>
    have ha : p a = true := h1 a (by simp)
    simp only [List.cons_append, List.dropWhile_cons, ha, if_true]
    exact ih (fun c hc => h1 c (by simp [hc]))

theorem isWs_eq_false_of_isDigit {c : Char} (h : c.isDigit = true) : isWs c = false := by
  simp only [isWs, Bool.or_eq_false_iff, beq_eq_false_iff_ne, ne_eq]
  refine ⟨⟨⟨?_, ?_⟩, ?_⟩, ?_⟩ <;>
    { intro hc; subst hc; exact absurd h (by decide) }

theorem isDigit_not_dot {c : Char} (h : c.isDigit = true) : c ≠ '.' := by
  intro hc
  subst hc
  exact absurd h (by decide)

theorem isDigit_not_sign {c : Char} (h : c.isDigit = true) : c ≠ '-' ∧ c ≠ '+' := by
  constructor <;> { intro hc; subst hc; exact absurd h (by decide) }

theorem parseSign_no_sign {c : Char} (rest : List Char) (h1 : c ≠ '-') (h2 : c ≠ '+') :
    parseSign (c :: rest) = (false, c :: rest) := by
  unfold parseSign
  split
  · rename_i heq
    rw [List.cons.injEq] at heq
    exact absurd heq.1 h1
  · rename_i heq
    rw [List.cons.injEq] at heq
    exact absurd heq.1 h2
  · rfl

theorem twoDigits_digits (k : Nat) : ∀ c ∈ twoDigits k, c.isDigit = true := by
  intro c hc
  simp only [twoDigits, List.mem_cons, List.mem_singleton, List.not_mem_nil, or_false] at hc
  rcases hc with hc | hc <;>
    exact hc ▸ isDigit_digitChar (Nat.mod_lt _ (by omega))

theorem digitsToNat_twoDigits (k : Nat) : digitsToNat (twoDigits k) = k % 100 := by
  simp only [twoDigits, digitsToNat, List.foldl_cons, List.foldl_nil,
    charDigit_digitChar (Nat.mod_lt (k / 10) (by omega : 0 < 10)),
    charDigit_digitChar (Nat.mod_lt k (by omega : 0 < 10))]
  omega

theorem parseExpPart_no_exp {c : Char} (rest : List Char) (h1 : c ≠ 'e') (h2 : c ≠ 'E') :
    parseExpPart (c :: rest) = (0, c :: rest) := by
  unfold parseExpPart
  split
  · rename_i heq
    rw [List.cons.injEq] at heq
    exact absurd heq.1 h1
  · rename_i heq
    rw [List.cons.injEq] at heq
    exact absurd heq.1 h2
  · rfl

theorem ratOfNat_eq_cast (n : Nat) : ratOfNat n = (n : Rat) := by
  refine Rat.ext ?_ ?_ <;> simp [ratOfNat]

/-- Parsing the fixed format `<digits>.<two digits>` followed by a space and
anything: the exact decimal comes back. -/
theorem parseFloatStr_fixed (a b : Nat) (hb : b < 100) (t : String) :
    parseFloatStr (String.mk (natChars a ++ '.' :: twoDigits b) ++ " " ++ t) =
      some ((a : Rat) + (b : Rat) / 100) := by
  obtain ⟨c, cs, hcc⟩ : ∃ c cs, natChars a = c :: cs := by
    cases h : natChars a with
    | nil => exact absurd h (natChars_ne_nil _)
    | cons c cs => exact ⟨c, cs, rfl⟩
  have hdigits : ∀ x ∈ c :: cs, x.isDigit = true := fun x hx =>
    natChars_digits a x (by rw [hcc]; exact hx)
  have hcd : c.isDigit = true := hdigits c (by simp)
  have hlist : (String.mk (natChars a ++ '.' :: twoDigits b) ++ " " ++ t).toList =
      c :: (cs ++ '.' :: (twoDigits b ++ ' ' :: t.toList)) := by
    show ((natChars a ++ '.' :: twoDigits b) ++ [' ']) ++ t.toList = _
    rw [hcc]
    simp
  have hdot : Char.isDigit '.' = false := by decide
  have hsp : Char.isDigit ' ' = false := by decide
  have htake := takeWhile_all_append '.' (twoDigits b ++ ' ' :: t.toList) hdigits hdot
  have hdrop := dropWhile_all_append '.' (twoDigits b ++ ' ' :: t.toList) hdigits hdot
  simp only [List.cons_append] at htake hdrop
  have htake2 := takeWhile_all_append ' ' t.toList (twoDigits_digits b) hsp
  have hdrop2 := dropWhile_all_append ' ' t.toList (twoDigits_digits b) hsp
  unfold parseFloatStr
  rw [hlist, List.dropWhile_cons, isWs_eq_false_of_isDigit hcd]
  simp only [Bool.false_eq_true, if_false]
  rw [parseSign_no_sign _ (isDigit_not_sign hcd).1 (isDigit_not_sign hcd).2]
  unfold parseMantissa
  simp only [htake, hdrop, htake2, hdrop2, List.isEmpty_cons, Bool.false_and,
    Bool.false_eq_true, if_false]
  rw [parseExpPart_no_exp _ (by decide) (by decide)]
  simp only [zpow_zero, mul_one]
  congr 1
  rw [← hcc, digitsToNat_natChars, digitsToNat_twoDigits, ratOfNat_eq_cast,
    ratOfNat_eq_cast]
  have h3 : ((10 : Rat) ^ (twoDigits b).length) = 100 := by
    norm_num [twoDigits]
  rw [h3, Nat.mod_eq_of_lt hb]

/-- The round trip at the heart of the pipeline's implicit coupling: the
`toFixed(2)` rendering of a nonnegative amount, followed by anything that
starts with a space, parses back (via `parseFloat`) to the rounded amount. -/
theorem parseFloatStr_toFixed2 (q : Rat) (hq : 0 ≤ q) (t : String) :
    parseFloatStr (toFixed2 q ++ " " ++ t) = some (roundTo2 q) := by
  have hql : ¬ q < 0 := not_lt.mpr hq
  have htf : toFixed2 q = String.mk
      (natChars (((|q| * 100 + 1 / 2).floor).toNat / 100) ++
        '.' :: twoDigits (((|q| * 100 + 1 / 2).floor).toNat % 100)) := by
    unfold toFixed2
    simp only [if_neg hql]
  rw [htf, parseFloatStr_fixed _ _ (Nat.mod_lt _ (by omega)) t]
  congr 1
  rw [roundTo2, ratOfNat_eq_cast]
  field_simp
  norm_cast
  omega

/-! ## Helper lemmas: the store and the sort -/

theorem mapGet_mapSet_same {α : Type} (m : List (String × α)) (k : String) (v : α) :
    mapGet (mapSet m k v) k = some v := by
  induction m with
  | nil => simp [mapSet, mapGet]
  | cons p rest ih =>
    obtain ⟨k1, v1⟩ := p
    by_cases h : k1 = k <;> simp [mapSet, mapGet, h, ih]

theorem rowLe_trans : ∀ (a b c : Row), rowLe a b → rowLe b c → rowLe a c := by
  intro a b c hab hbc
  simp only [rowLe, decide_eq_true_eq] at hab hbc ⊢
  exact le_trans hab hbc

theorem rowLe_total : ∀ (a b : Row), rowLe a b || rowLe b a := by
  intro a b
  simp only [rowLe, Bool.or_eq_true, decide_eq_true_eq]
  exact le_total _ _

theorem sortRows_perm (rows : List Row) : List.Perm (sortRows rows) rows :=
  List.mergeSort_perm rows rowLe

theorem sortRows_sorted (rows : List Row) :
    (sortRows rows).Pairwise (fun a b => rowLe a b = true) :=
  List.sorted_mergeSort rowLe_trans rowLe_total rows

theorem sortRows_stable (rows : List Row) (d : String) :
    (sortRows rows).filter (fun r => r.dateReceived == d) =
      rows.filter (fun r => r.dateReceived == d) := by
  have hmem : ∀ r ∈ rows.filter (fun r => r.dateReceived == d), r.dateReceived = d := by
    intro r hr
    have := (List.mem_filter.mp hr).2
    exact eq_of_beq this
  have hpair : (rows.filter (fun r => r.dateReceived == d)).Pairwise
      (fun a b => rowLe a b = true) := by
    refine List.pairwise_of_forall_mem_list ?_
    intro a ha b hb
    simp only [rowLe, hmem a ha, hmem b hb, decide_eq_true_eq]
    exact le_refl _
  have hsubsort : List.Sublist (rows.filter (fun r => r.dateReceived == d)) (sortRows rows) :=
    List.sublist_mergeSort rowLe_trans rowLe_total hpair (List.filter_sublist rows)
  have hperm : List.Perm ((sortRows rows).filter (fun r => r.dateReceived == d))
      (rows.filter (fun r => r.dateReceived == d)) :=
    (sortRows_perm rows).filter _
  have hidem : (rows.filter (fun r => r.dateReceived == d)).filter
      (fun r => r.dateReceived == d) = rows.filter (fun r => r.dateReceived == d) :=
    List.filter_eq_self.mpr (fun a ha => by simp [hmem a ha])
  have hsub2 : List.Sublist (rows.filter (fun r => r.dateReceived == d))
      ((sortRows rows).filter (fun r => r.dateReceived == d)) := by
    have := hsubsort.filter (fun r => r.dateReceived == d)
    rwa [hidem] at this
  exact (hsub2.eq_of_length hperm.length_eq.symm).symm

theorem append_no_rate_ne (x : String) : x ++ " (No Rate)" ≠ "Failed to fetch rates" := by
  intro h
  have h2 : (x ++ " (No Rate)").toList.reverse =
      "Failed to fetch rates".toList.reverse := by rw [h]
  rw [show (x ++ " (No Rate)").toList = x.toList ++ " (No Rate)".toList from rfl,
    List.reverse_append,
    show " (No Rate)".toList.reverse = [')', 'e', 't', 'a', 'R', ' ', 'o', 'N', '(', ' '] from rfl,
    show "Failed to fetch rates".toList.reverse =
      ['s', 'e', 't', 'a', 'r', ' ', 'h', 'c', 't', 'e', 'f', ' ', 'o', 't', ' ', 'd', 'e', 'l', 'i', 'a', 'F'] from rfl,
    List.cons_append] at h2
  exact absurd (List.head_eq_of_cons_eq h2) (by decide)

/-- The "(No Rate)" branch of `convertToUSD`: numeric amount, usable
non-USD currency, table present but without the code. -/
theorem convertToUSD_no_rate (amount : JsVal) (q : Rat) (cur : String)
    (table : List (String × Rat))
    (hnum : parseFloat amount = PFloat.num q)
    (hnn : amount ≠ JsVal.null) (hne : amount ≠ JsVal.str "")
    (hcur : cur ≠ "") (husd : jsToUpper cur ≠ "USD")
    (hmiss : mapGet table (jsToUpper cur) = none) :
    convertToUSD amount (some cur) (some table) =
      JsVal.str (toFixed2 q ++ " " ++ cur ++ " (No Rate)") := by
  unfold convertToUSD
  rw [hnum]
  simp [hnn, hne, hcur, husd, hmiss]

/-! ## The claims -/

/-- Claim C7 — a reference record inserted into `allMsg01s` under its
`(senderCode, sellerNumber)` key is retrievable by that key immediately, and
a second insertion under an identical key replaces the first entirely (last
write wins, no merge, no error): the subsequent lookup returns the second
record, for any prior store contents. -/
theorem claim_C7_store_round_trip :
    (∀ (m : List (String × MSG01S)) (sc nr : Option String) (r : MSG01S),
      mapGet (mapSet m (mkKey sc nr) r) (mkKey sc nr) = some r) ∧
    (∀ (m : List (String × MSG01S)) (sc nr : Option String) (r1 r2 : MSG01S),
      mapGet (mapSet (mapSet m (mkKey sc nr) r1) (mkKey sc nr) r2) (mkKey sc nr) =
        some r2) :=
  ⟨fun m sc nr r => mapGet_mapSet_same m (mkKey sc nr) r,
   fun m sc nr r1 r2 => mapGet_mapSet_same (mapSet m (mkKey sc nr) r1) (mkKey sc nr) r2⟩

/-- Claim C3 — whenever the credit line parses to a number at most 500000,
`getCreditManager` returns `"lux"` (HandlerA) regardless of the country code
and of the partner name; a credit line that does not parse as a number
(`parseFloat` NaN) yields `"N/A"` (Unclassifiable), never an error. -/
theorem claim_C3_threshold_dominates :
    (∀ (cc : String) (name : Option String) (v : JsVal) (q : Rat),
      parseFloat v = PFloat.num q → q ≤ 500000 →
      getCreditManager cc v name = some "lux") ∧
    (∀ (cc : String) (name : Option String) (v : JsVal),
      parseFloat v = PFloat.nan → getCreditManager cc v name = some "N/A") := by
  constructor
  · intro cc name v q hv hq
    unfold getCreditManager
    rw [hv]
    simp [hq]
  · intro cc name v hv
    unfold getCreditManager
    rw [hv]

/-- Claim C3, witness — `classify("DE", 100000, "Any Bank")` is HandlerA, and
`classify` of the unparsable credit line `"N/A"` is Unclassifiable. -/
theorem claim_C3_witness :
    getCreditManager "DE" (JsVal.num 100000) (some "Any Bank") = some "lux" ∧
    getCreditManager "DE" (JsVal.str "N/A") (some "Any Bank") = some "N/A" :=
  ⟨claim_C3_threshold_dominates.1 "DE" (some "Any Bank") (JsVal.num 100000) 100000 rfl
      (by decide),
   claim_C3_threshold_dominates.2 "DE" (some "Any Bank") (JsVal.str "N/A") rfl⟩

/-- Claim C4 — above the 500000 threshold, for each of the three special
codes the result is `"trey"` (HandlerB) exactly when the partner name
contains the required substring (SG: "Mogli"; JP: "Mitsubishi" or "Sumitomo
Mitsui"; US: "Standard Chartered Bank New York") and `"bost"` (HandlerC)
otherwise; in particular the two quoted US examples. -/
theorem claim_C4_special_codes :
    (∀ (v : JsVal) (q : Rat) (name : String),
      parseFloat v = PFloat.num q → 500000 < q →
      getCreditManager "SG" v (some name) =
        some (if jsIncludes name "Mogli" then "trey" else "bost") ∧
      getCreditManager "JP" v (some name) =
        some (if jsIncludes name "Mitsubishi" || jsIncludes name "Sumitomo Mitsui"
          then "trey" else "bost") ∧
      getCreditManager "US" v (some name) =
        some (if jsIncludes name "Standard Chartered Bank New York"
          then "trey" else "bost")) ∧
    getCreditManager "US" (JsVal.num 600000)
      (some "Standard Chartered Bank New York") = some "trey" ∧
    getCreditManager "US" (JsVal.num 600000) (some "Other Bank") = some "bost" := by
  refine ⟨?_, by decide, by decide⟩
  intro v q name hv hq
  have hq2 : ¬ q ≤ 500000 := not_le.mpr hq
  refine ⟨?_, ?_, ?_⟩ <;>
    · unfold getCreditManager
      rw [hv]
      simp only [hq2, if_false]
      simp [treyCountryCodes, treySpecialCodes]
      split <;> rfl

/-- Claim C4, witness — the general special-code rule applied at the
concrete amount 600000 and the partner name "Mogli Factoring Singapore". -/
theorem claim_C4_witness :
    getCreditManager "SG" (JsVal.num 600000) (some "Mogli Factoring Singapore") =
      some (if jsIncludes "Mogli Factoring Singapore" "Mogli" then "trey" else "bost") :=
  (claim_C4_special_codes.1 (JsVal.num 600000) 600000 "Mogli Factoring Singapore" rfl
    (by decide)).1

/-- Claim C5, counterexample — the claim quantifies over every non-empty
currency code, but for the code `"USD"` with a rate table that does not
contain `"USD"`, `convertToUSD` takes the pass-through branch and returns
the bare original amount, not a placeholder (no `"(No Rate)"` marker). -/
theorem claim_C5_counterexample :
    convertToUSD (JsVal.str "100") (some "USD") (some [("EUR", (9 : Rat) / 10)]) =
      JsVal.str "100" ∧
    jsIncludes "100" "(No Rate)" = false := by
  refine ⟨?_, rfl⟩
  with_unfolding_all rfl

/-- Claim C5 (amended) — for an amount that parses to a number and a
non-empty currency code that is not (case-insensitively) `"USD"`, when the
rate table is present but has no entry for the code, `convertToUSD` returns
the placeholder string `"<amount to 2 decimals> <currency> (No Rate)"` —
reporting the original amount and the original currency code — rather than
throwing or failing the row. -/
theorem claim_C5_rate_not_found (amount : JsVal) (q : Rat) (cur : String)
    (table : List (String × Rat))
    (hnum : parseFloat amount = PFloat.num q)
    (hnn : amount ≠ JsVal.null) (hne : amount ≠ JsVal.str "")
    (hcur : cur ≠ "") (husd : jsToUpper cur ≠ "USD")
    (hmiss : mapGet table (jsToUpper cur) = none) :
    convertToUSD amount (some cur) (some table) =
      JsVal.str (toFixed2 q ++ " " ++ cur ++ " (No Rate)") :=
  convertToUSD_no_rate amount q cur table hnum hnn hne hcur husd hmiss

/-- Claim C5, witness — `toUSD(100, "ZZZ", {USD:1, EUR:0.9})` yields the
no-rate placeholder, not a thrown error. -/
theorem claim_C5_witness :
    convertToUSD (JsVal.num 100) (some "ZZZ")
      (some [("USD", 1), ("EUR", (9 : Rat) / 10)]) =
      JsVal.str (toFixed2 100 ++ " " ++ "ZZZ" ++ " (No Rate)") :=
  claim_C5_rate_not_found (JsVal.num 100) 100 "ZZZ" [("USD", 1), ("EUR", (9 : Rat) / 10)]
    rfl (by decide) (by decide) (by decide) (by decide) rfl

/-- Claim C1, counterexample — a leaf whose text is the non-empty,
non-numeric `"abc"` is read by `getElementNumber` as NaN (`Number("abc")`),
which is not the null value the claim promises. -/
theorem claim_C1_counterexample :
    getElementNumber fixUnparsableLeaf "NetPmtTerms" = JsVal.nan ∧
    JsVal.nan ≠ JsVal.null := by
  exact ⟨rfl, by decide⟩

/-- Claim C1 (amended) — the numeric-or-null rule shared by every decoder's
`getElementNumber`: an absent leaf or an empty text yields null (not zero,
not an error); a non-empty text is passed to `Number(...)`, so non-empty
unparsable text yields NaN (not null), still without raising. -/
theorem claim_C1_numeric_or_null (el : XmlNode) (tag : String) :
    ((getElementText el tag = none ∨ getElementText el tag = some "") →
      getElementNumber el tag = JsVal.null) ∧
    (∀ s, getElementText el tag = some s → s ≠ "" →
      getElementNumber el tag = jsNumberStr s) := by
  constructor
  · intro h
    unfold getElementNumber
    rcases h with h | h <;> rw [h] <;> simp
  · intro s hs hne
    unfold getElementNumber
    rw [hs]
    simp [hne]

/-- Claim C1, witness — the rule applied to a concrete element: the absent
leaf `Missing` reads as null, and the unparsable leaf `NetPmtTerms` of the
same element reads as `Number("abc")`, which is NaN. -/
theorem claim_C1_witness :
    getElementNumber fixUnparsableLeaf "Missing" = JsVal.null ∧
    getElementNumber fixUnparsableLeaf "NetPmtTerms" = jsNumberStr "abc" :=
  ⟨(claim_C1_numeric_or_null fixUnparsableLeaf "Missing").1 (Or.inl rfl),
   (claim_C1_numeric_or_null fixUnparsableLeaf "NetPmtTerms").2 "abc" rfl (by decide)⟩

/-- Claim C10 — the per-batch reset clears exactly the four message
collections and leaves the exchange-rate table unchanged; a failed rate
fetch leaves the whole state (in particular the previously fetched table)
unchanged, so the next batch converts with the previous table; and with a
table present, `convertToUSD` never reports rates as unavailable. -/
theorem claim_C10_reset_frame :
    (∀ s : GlobalState, resetGlobalMessageCollections s =
      { allMsg01s := [], allMsg02s := [], allMsg05s := [], allMsg07s := [],
        exchangeRates := s.exchangeRates }) ∧
    (∀ s : GlobalState, applyRateFetch s none = s) ∧
    (∀ s : GlobalState,
      (applyRateFetch (resetGlobalMessageCollections s) none).exchangeRates =
        s.exchangeRates) ∧
    (∀ (amount : JsVal) (cur : Option String) (table : List (String × Rat)),
      convertToUSD amount cur (some table) = JsVal.str "Failed to fetch rates" →
        False) := by
  refine ⟨fun s => rfl, fun s => rfl, fun s => rfl, ?_⟩
  intro amount cur table h
  unfold convertToUSD at h
  split at h
  · exact absurd (JsVal.str.inj h) (by decide)
  · rcases cur with _ | c
    · exact absurd (JsVal.str.inj h) (by decide)
    · simp only [] at h
      split at h
      · exact absurd (JsVal.str.inj h) (by decide)
      · rcases hpf : parseFloat amount with _ | a <;> rw [hpf] at h <;>
          simp only [] at h
        · exact absurd (JsVal.str.inj h) (by decide)
        · split at h
          · rename_i husd
            subst h
            rw [show parseFloat (JsVal.str "Failed to fetch rates") = PFloat.nan
              from rfl] at hpf
            exact PFloat.noConfusion hpf
          · rcases hmg : mapGet table (jsToUpper c) with _ | rate <;> rw [hmg] at h <;>
              simp only [] at h
            · exact append_no_rate_ne _ (JsVal.str.inj h)
            · split at h
              · exact append_no_rate_ne _ (JsVal.str.inj h)
              · exact JsVal.noConfusion h

/-- Claim C6 — the pipeline's final sort (`sortRows`, applied by
`generateCombinedDisplayData` to the pre-sort row sequence): the output is a
permutation of the input, consecutive rows are ascending in the date their
`dateReceived` parses to, and rows with an identical `dateReceived` keep
their pre-sort relative order (per-key filters are untouched).  A stable
sort is uniquely determined by these three properties, so the final ordering
is a pure function of `dateReceived` over the pre-sort sequence. -/
theorem claim_C6_sorted_stable (rows : List Row) :
    List.Perm (sortRows rows) rows ∧
    (sortRows rows).Pairwise (fun a b => ∀ x y, parseISODate a.dateReceived = some x →
      parseISODate b.dateReceived = some y → x ≤ y) ∧
    (∀ d : String, (sortRows rows).filter (fun r => r.dateReceived == d) =
      rows.filter (fun r => r.dateReceived == d)) := by
  refine ⟨sortRows_perm rows, ?_, fun d => sortRows_stable rows d⟩
  refine (sortRows_sorted rows).imp ?_
  intro a b hab x y hx hy
  simp only [rowLe, decide_eq_true_eq, dateKeyD, hx, hy, Option.getD_some] at hab
  exact hab

/-- Claim C9 — the classification step receives the raw `convertToUSD`
result and parses it with `parseFloat`: a rate-not-found placeholder
`"<amount> <currency> (No Rate)"` therefore classifies exactly as the
original (non-USD) amount rounded to two decimals, as if it were USD; and
each conversion result that begins with non-numeric text (the blank, `"N/A"`,
`"Invalid Amount"` and `"Failed to fetch rates"` sentinels) classifies as
`"N/A"` (Unclassifiable). -/
theorem claim_C9_placeholder_classified (cc : String) (name : Option String)
    (q : Rat) (cur : String) (table : List (String × Rat))
    (hq : 0 ≤ q) (hcur : cur ≠ "") (husd : jsToUpper cur ≠ "USD")
    (hmiss : mapGet table (jsToUpper cur) = none) :
    getCreditManager cc (convertToUSD (JsVal.num q) (some cur) (some table)) name =
      getCreditManager cc (JsVal.num (roundTo2 q)) name ∧
    (∀ (c2 : String) (n2 : Option String),
      getCreditManager c2 (JsVal.str " ") n2 = some "N/A" ∧
      getCreditManager c2 (JsVal.str "N/A") n2 = some "N/A" ∧
      getCreditManager c2 (JsVal.str "Invalid Amount") n2 = some "N/A" ∧
      getCreditManager c2 (JsVal.str "Failed to fetch rates") n2 = some "N/A") := by
  constructor
  · rw [convertToUSD_no_rate (JsVal.num q) q cur table rfl
      (fun h => JsVal.noConfusion h) (fun h => JsVal.noConfusion h) hcur husd hmiss]
    have hpf : parseFloat (JsVal.str (toFixed2 q ++ " " ++ cur ++ " (No Rate)")) =
        PFloat.num (roundTo2 q) := by
      simp only [parseFloat]
      rw [show toFixed2 q ++ " " ++ cur ++ " (No Rate)" =
        toFixed2 q ++ " " ++ (cur ++ " (No Rate)") from by rw [String.append_assoc]]
      rw [parseFloatStr_toFixed2 q hq (cur ++ " (No Rate)")]
    unfold getCreditManager
    rw [hpf]
    rfl
  · intro c2 n2
    exact ⟨rfl, rfl, rfl, rfl⟩

/-- Claim C9, witness — the composition at the concrete inputs of the
pipeline row for a 600000 EUR request when the fetched table lacks EUR: the
row is classified as if 600000 were a USD amount, and the four sentinels are
Unclassifiable. -/
theorem claim_C9_witness :
    getCreditManager "US"
        (convertToUSD (JsVal.num 600000) (some "EUR") (some [("USD", 1)]))
        (some "Other Bank") =
      getCreditManager "US" (JsVal.num (roundTo2 600000)) (some "Other Bank") ∧
    (∀ (c2 : String) (n2 : Option String),
      getCreditManager c2 (JsVal.str " ") n2 = some "N/A" ∧
      getCreditManager c2 (JsVal.str "N/A") n2 = some "N/A" ∧
      getCreditManager c2 (JsVal.str "Invalid Amount") n2 = some "N/A" ∧
      getCreditManager c2 (JsVal.str "Failed to fetch rates") n2 = some "N/A") :=
  claim_C9_placeholder_classified "US" (some "Other Bank") 600000 "EUR" [("USD", 1)]
    (by decide) (by decide) (by decide) (by decide)

/-- Claim C2, counterexample — an MSG05 fragment with every required section
except `Buyer` raises the generic error `"Missing required elements in MSG05
XML."`: the message names the schema kind but not the missing substructure,
so the claim's "names the missing substructure" fails for MSG05 (and
likewise MSG07). -/
theorem claim_C2_counterexample :
    decodeMSG05 fixMSG05NoBuyer = .error "Missing required elements in MSG05 XML." ∧
    jsIncludes "Missing required elements in MSG05 XML." "Buyer" = false :=
  ⟨rfl, rfl⟩

/-- Claim C2 (amended) — for all four schema kinds a fragment missing a
required substructure is rejected before any field extraction (the decoder
returns an error, never a record).  For MSG01 and MSG02 the error of the
first missing section in check order names that substructure and the schema
kind; for MSG05 and MSG07 the error is one generic message that names only
the schema kind. -/
theorem claim_C2_missing_section (doc root : XmlNode) :
    (docFind doc "MSG01" = some root →
      (querySelector root "MsgInfo" = none →
        decodeMSG01 doc = .error "Invalid MSG01 XML structure: <MsgInfo> element not found." ∧
        jsIncludes "Invalid MSG01 XML structure: <MsgInfo> element not found." "MsgInfo" = true ∧
        jsIncludes "Invalid MSG01 XML structure: <MsgInfo> element not found." "MSG01" = true) ∧
      ((querySelector root "MsgInfo").isSome → querySelector root "EF" = none →
        decodeMSG01 doc = .error "Invalid MSG01 XML structure: <EF> element not found." ∧
        jsIncludes "Invalid MSG01 XML structure: <EF> element not found." "EF" = true ∧
        jsIncludes "Invalid MSG01 XML structure: <EF> element not found." "MSG01" = true) ∧
      ((querySelector root "MsgInfo").isSome → (querySelector root "EF").isSome →
        querySelector root "IF" = none →
        decodeMSG01 doc = .error "Invalid MSG01 XML structure: <IF> element not found." ∧
        jsIncludes "Invalid MSG01 XML structure: <IF> element not found." "IF" = true ∧
        jsIncludes "Invalid MSG01 XML structure: <IF> element not found." "MSG01" = true) ∧
      ((querySelector root "MsgInfo").isSome → (querySelector root "EF").isSome →
        (querySelector root "IF").isSome → querySelector root "Seller" = none →
        decodeMSG01 doc = .error "Invalid MSG01 XML structure: <Seller> element not found." ∧
        jsIncludes "Invalid MSG01 XML structure: <Seller> element not found." "Seller" = true ∧
        jsIncludes "Invalid MSG01 XML structure: <Seller> element not found." "MSG01" = true) ∧
      ((querySelector root "MsgInfo").isSome → (querySelector root "EF").isSome →
        (querySelector root "IF").isSome → (querySelector root "Seller").isSome →
        querySelector root "SellerDetails" = none →
        decodeMSG01 doc =
          .error "Invalid MSG01 XML structure: <SellerDetails> element not found." ∧
        jsIncludes "Invalid MSG01 XML structure: <SellerDetails> element not found."
          "SellerDetails" = true ∧
        jsIncludes "Invalid MSG01 XML structure: <SellerDetails> element not found."
          "MSG01" = true)) ∧
    (docFind doc "MSG02" = some root →
      (querySelector root "MsgInfo" = none →
        decodeMSG02 doc = .error "Invalid MSG02 XML structure: <MsgInfo> element not found." ∧
        jsIncludes "Invalid MSG02 XML structure: <MsgInfo> element not found." "MsgInfo" = true ∧
        jsIncludes "Invalid MSG02 XML structure: <MsgInfo> element not found." "MSG02" = true) ∧
      ((querySelector root "MsgInfo").isSome → querySelector root "EF" = none →
        decodeMSG02 doc = .error "Invalid MSG02 XML structure: <EF> element not found.") ∧
      ((querySelector root "MsgInfo").isSome → (querySelector root "EF").isSome →
        querySelector root "IF" = none →
        decodeMSG02 doc = .error "Invalid MSG02 XML structure: <IF> element not found.") ∧
      ((querySelector root "MsgInfo").isSome → (querySelector root "EF").isSome →
        (querySelector root "IF").isSome → querySelector root "Seller" = none →
        decodeMSG02 doc = .error "Invalid MSG02 XML structure: <Seller> element not found.") ∧
      ((querySelector root "MsgInfo").isSome → (querySelector root "EF").isSome →
        (querySelector root "IF").isSome → (querySelector root "Seller").isSome →
        querySelector root "Buyer" = none →
        decodeMSG02 doc = .error "Invalid MSG02 XML structure: <Buyer> element not found." ∧
        jsIncludes "Invalid MSG02 XML structure: <Buyer> element not found." "Buyer" = true ∧
        jsIncludes "Invalid MSG02 XML structure: <Buyer> element not found." "MSG02" = true) ∧
      ((querySelector root "MsgInfo").isSome → (querySelector root "EF").isSome →
        (querySelector root "IF").isSome → (querySelector root "Seller").isSome →
        (querySelector root "Buyer").isSome →
        querySelector root "PrelCreditAssessDetails" = none →
        decodeMSG02 doc =
          .error "Invalid MSG02 XML structure: <PrelCreditAssessDetails> element not found.")) ∧
    (docFind doc "MSG05" = some root →
      (querySelector root "MsgInfo" = none ∨ querySelector root "EF" = none ∨
        querySelector root "IF" = none ∨ querySelector root "Seller" = none ∨
        querySelector root "Buyer" = none ∨
        querySelector root "CreditCoverDetails" = none) →
      decodeMSG05 doc = .error "Missing required elements in MSG05 XML." ∧
      jsIncludes "Missing required elements in MSG05 XML." "MSG05" = true) ∧
    (docFind doc "MSG07" = some root →
      (querySelector root "MsgInfo" = none ∨ querySelector root "EF" = none ∨
        querySelector root "IF" = none ∨ querySelector root "Seller" = none ∨
        querySelector root "Buyer" = none ∨
        querySelector root "CurrentCreditCoverDetails" = none ∨
        querySelector root "NewCreditCoverDetails" = none) →
      decodeMSG07 doc = .error "Missing required elements in MSG07 XML." ∧
      jsIncludes "Missing required elements in MSG07 XML." "MSG07" = true) := by
  refine ⟨?_, ?_, ?_, ?_⟩
  · intro hroot
    refine ⟨?_, ?_, ?_, ?_, ?_⟩
    · intro h1
      refine ⟨?_, rfl, rfl⟩
      unfold decodeMSG01
      rw [hroot]
      simp only []
      rw [h1]
    · intro h1 h2
      obtain ⟨e1, he1⟩ := Option.isSome_iff_exists.mp h1
      refine ⟨?_, rfl, rfl⟩
      unfold decodeMSG01
      rw [hroot]
      simp only []
      rw [he1, h2]
    · intro h1 h2 h3
      obtain ⟨e1, he1⟩ := Option.isSome_iff_exists.mp h1
      obtain ⟨e2, he2⟩ := Option.isSome_iff_exists.mp h2
      refine ⟨?_, rfl, rfl⟩
      unfold decodeMSG01
      rw [hroot]
      simp only []
      rw [he1, he2, h3]
    · intro h1 h2 h3 h4
      obtain ⟨e1, he1⟩ := Option.isSome_iff_exists.mp h1
      obtain ⟨e2, he2⟩ := Option.isSome_iff_exists.mp h2
      obtain ⟨e3, he3⟩ := Option.isSome_iff_exists.mp h3
      refine ⟨?_, rfl, rfl⟩
      unfold decodeMSG01
      rw [hroot]
      simp only []
      rw [he1, he2, he3, h4]
    · intro h1 h2 h3 h4 h5
      obtain ⟨e1, he1⟩ := Option.isSome_iff_exists.mp h1
      obtain ⟨e2, he2⟩ := Option.isSome_iff_exists.mp h2
      obtain ⟨e3, he3⟩ := Option.isSome_iff_exists.mp h3
      obtain ⟨e4, he4⟩ := Option.isSome_iff_exists.mp h4
      refine ⟨?_, rfl, rfl⟩
      unfold decodeMSG01
      rw [hroot]
      simp only []
      rw [he1, he2, he3, he4, h5]
  · intro hroot
    refine ⟨?_, ?_, ?_, ?_, ?_, ?_⟩
    · intro h1
      refine ⟨?_, rfl, rfl⟩
      unfold decodeMSG02
      rw [hroot]
      simp only []
      rw [h1]
    · intro h1 h2
      obtain ⟨e1, he1⟩ := Option.isSome_iff_exists.mp h1
      unfold decodeMSG02
      rw [hroot]
      simp only []
      rw [he1, h2]
    · intro h1 h2 h3
      obtain ⟨e1, he1⟩ := Option.isSome_iff_exists.mp h1
      obtain ⟨e2, he2⟩ := Option.isSome_iff_exists.mp h2
      unfold decodeMSG02
      rw [hroot]
      simp only []
      rw [he1, he2, h3]
    · intro h1 h2 h3 h4
      obtain ⟨e1, he1⟩ := Option.isSome_iff_exists.mp h1
      obtain ⟨e2, he2⟩ := Option.isSome_iff_exists.mp h2
      obtain ⟨e3, he3⟩ := Option.isSome_iff_exists.mp h3
      unfold decodeMSG02
      rw [hroot]
      simp only []
      rw [he1, he2, he3, h4]
    · intro h1 h2 h3 h4 h5
      obtain ⟨e1, he1⟩ := Option.isSome_iff_exists.mp h1
      obtain ⟨e2, he2⟩ := Option.isSome_iff_exists.mp h2
      obtain ⟨e3, he3⟩ := Option.isSome_iff_exists.mp h3
      obtain ⟨e4, he4⟩ := Option.isSome_iff_exists.mp h4
      refine ⟨?_, rfl, rfl⟩
      unfold decodeMSG02
      rw [hroot]
      simp only []
      rw [he1, he2, he3, he4, h5]
    · intro h1 h2 h3 h4 h5 h6
      obtain ⟨e1, he1⟩ := Option.isSome_iff_exists.mp h1
      obtain ⟨e2, he2⟩ := Option.isSome_iff_exists.mp h2
      obtain ⟨e3, he3⟩ := Option.isSome_iff_exists.mp h3
      obtain ⟨e4, he4⟩ := Option.isSome_iff_exists.mp h4
      obtain ⟨e5, he5⟩ := Option.isSome_iff_exists.mp h5
      unfold decodeMSG02
      rw [hroot]
      simp only []
      rw [he1, he2, he3, he4, he5, h6]
  · intro hroot hdis
    refine ⟨?_, rfl⟩
    unfold decodeMSG05
    rw [hroot]
    simp only []
    rcases q1 : querySelector root "MsgInfo" with _ | x1 <;>
      rcases q2 : querySelector root "EF" with _ | x2 <;>
      rcases q3 : querySelector root "IF" with _ | x3 <;>
      rcases q4 : querySelector root "Seller" with _ | x4 <;>
      rcases q5 : querySelector root "Buyer" with _ | x5 <;>
      rcases q6 : querySelector root "CreditCoverDetails" with _ | x6 <;>
      first
      | rfl
      | (rcases hdis with h | h | h | h | h | h <;> simp_all)
  · intro hroot hdis
    refine ⟨?_, rfl⟩
    unfold decodeMSG07
    rw [hroot]
    simp only []
    rcases q1 : querySelector root "MsgInfo" with _ | x1 <;>
      rcases q2 : querySelector root "EF" with _ | x2 <;>
      rcases q3 : querySelector root "IF" with _ | x3 <;>
      rcases q4 : querySelector root "Seller" with _ | x4 <;>
      rcases q5 : querySelector root "Buyer" with _ | x5 <;>
      rcases q6 : querySelector root "CurrentCreditCoverDetails" with _ | x6 <;>
      rcases q7 : querySelector root "NewCreditCoverDetails" with _ | x7 <;>
      first
      | rfl
      | (rcases hdis with h | h | h | h | h | h | h <;> simp_all)

/-- Claim C2, witness — the MSG01 case at a concrete fragment whose
`MsgInfo` section is missing: the decoder rejects it with the error that
names both the section and the kind. -/
theorem claim_C2_witness :
    decodeMSG01 fixMSG01NoMsgInfo =
      .error "Invalid MSG01 XML structure: <MsgInfo> element not found." ∧
    jsIncludes "Invalid MSG01 XML structure: <MsgInfo> element not found." "MsgInfo" = true ∧
    jsIncludes "Invalid MSG01 XML structure: <MsgInfo> element not found." "MSG01" = true :=
  ((claim_C2_missing_section fixMSG01NoMsgInfo
    ⟨"MSG01", "", fixMSG01NoMsgInfo.children⟩).1 rfl).1 rfl

/-- Claim C8 — a decode error is fatal only to its own fragment: skipping
the failed fragment leaves every collection unchanged (for any store state),
so a batch of one well-formed MSG02 fragment and one failing fragment ends
with exactly the one decoded record in the store, and the pipeline then
produces exactly the one normalized row built from it (the batch is not
aborted). -/
theorem claim_C8_error_isolation (g b : XmlNode) (m : MSG02S)
    (regionOf : String → String) (rates : Option (List (String × Rat)))
    (hg : dispatchDecode g = some (DecodedMsg.m02 m))
    (hb : dispatchDecode b = none) :
    (∀ s : GlobalState, processNode s b = s) ∧
    processBatch ⟨[], [], [], [], rates⟩ [g, b] = ⟨[], [m], [], [], rates⟩ ∧
    generateCombinedDisplayData regionOf ⟨[], [m], [], [], rates⟩ =
      (buildRow regionOf rates [] (TMsg.t02 m)).map (fun r => [r]) := by
  have hskip : ∀ s : GlobalState, processNode s b = s := by
    intro s
    unfold processNode
    rw [hb]
  refine ⟨hskip, ?_, ?_⟩
  · show processNode (processNode ⟨[], [], [], [], rates⟩ g) b = _
    rw [hskip]
    unfold processNode
    rw [hg]
    simp
  · unfold generateCombinedDisplayData
    simp only [List.map_cons, List.map_nil, List.append_nil, List.nil_append]
    cases hbr : buildRow regionOf rates [] (TMsg.t02 m) <;>
      simp [buildRows, hbr, sortRows]

/-- Claim C8, witness — the batch `[fixGoodMSG02, fixMSG05NoBuyer]` (one
well-formed MSG02, one MSG05 missing its `Buyer` section) on an empty store:
the bad fragment changes nothing, the store ends with exactly the one
record, and the pipeline output is the single row built from it. -/
theorem claim_C8_witness :
    (∀ s : GlobalState, processNode s fixMSG05NoBuyer = s) ∧
    processBatch ⟨[], [], [], [], none⟩ [fixGoodMSG02, fixMSG05NoBuyer] =
      ⟨[], [fixGoodMSG02Rec], [], [], none⟩ ∧
    generateCombinedDisplayData (fun c => c) ⟨[], [fixGoodMSG02Rec], [], [], none⟩ =
      (buildRow (fun c => c) none [] (TMsg.t02 fixGoodMSG02Rec)).map (fun r => [r]) :=
  claim_C8_error_isolation fixGoodMSG02 fixMSG05NoBuyer fixGoodMSG02Rec
    (fun c => c) none rfl rfl

end CreditLog
